import Mathlib

/-!
# Shallow embedding of `btcore/src/uuid.cc`

The C module implements a 128-bit Bluetooth UUID value type:

* `bt_uuid_t` is a struct holding 16 `uint8_t` bytes (`uu[0] .. uu[15]`),
  modelled here as a `List Nat` of length 16 with every entry `< 256`;
* `uuid_new` parses the canonical hyphenated hex string form;
* `uuid_to_string` formats a UUID back to that form;
* `uuid_is_empty`, `uuid_is_base`, `uuid_128_to_16`, `uuid_128_to_32` are
  predicates/conversions on UUID values.

Nullable `bt_uuid_t*` arguments are modelled as `Option (List Nat)` where the
operation accepts NULL (`uuid_is_empty`, `uuid_is_base`); operations that
`CHECK`-assert non-NULL take the value directly.  C strings are modelled as
`List Char` (a C string cannot contain NUL, and `strlen` is `List.length`).
-/

/-- Well-formedness of a modelled `bt_uuid_t`: exactly 16 bytes, each a
`uint8_t` value.  This is what the C type system guarantees by construction. -/
def bt_uuid_wf (u : List Nat) : Prop := u.length = 16 ∧ ∀ b ∈ u, b < 256

instance (u : List Nat) : Decidable (bt_uuid_wf u) := by
  unfold bt_uuid_wf; infer_instance

/-- `static const bt_uuid_t empty_uuid = {{0}};` — all 16 bytes zero. -/
def empty_uuid : List Nat := List.replicate 16 0

/-- `static const bt_uuid_t base_uuid` — the Bluetooth SDP base UUID. -/
def base_uuid : List Nat :=
  [0x00, 0x00, 0x00, 0x00, 0x00, 0x00, 0x10, 0x00, 0x80, 0x00, 0x00, 0x80,
   0x5f, 0x9b, 0x34, 0xfb]

/-- The hexadecimal value of a character, exactly the digits `strtoul` with
base 16 accepts: `0-9`, `a-f`, `A-F` (by their ASCII codes). -/
def hexVal (c : Char) : Option Nat :=
  if 48 ≤ c.toNat ∧ c.toNat ≤ 57 then some (c.toNat - 48)
  else if 97 ≤ c.toNat ∧ c.toNat ≤ 102 then some (c.toNat - 87)
  else if 65 ≤ c.toNat ∧ c.toNat ≤ 70 then some (c.toNat - 55)
  else none

/-- The whitespace characters `strtoul` (via `isspace` in the C locale) skips
at the start of its input: space, \t, \n, \v, \f, \r. -/
def isStrtoulSpace (c : Char) : Bool :=
  c = ' ' ∨ c = Char.ofNat 9 ∨ c = Char.ofNat 10 ∨ c = Char.ofNat 11 ∨
  c = Char.ofNat 12 ∨ c = Char.ofNat 13

/-- `(uint8_t)strtoul(buf, NULL, 16)` for the two-character buffer
`buf = {c0, c1, 0}` built in the `uuid_new` loop.

`strtoul` skips leading whitespace, accepts an optional sign (a negative
value is negated in `unsigned long`, i.e. modulo `2^64`), then consumes the
longest prefix of hex digits (an empty digit run, including the bare `0x`
prefix case, yields 0).  The result is stored into `uint8_t`, i.e. reduced
modulo 256.  On a 2-character buffer the `0x`/`0X` prefix case collapses into
the digit-run case (both yield 0). -/
def strtoul2 (c0 c1 : Char) : Nat :=
  match hexVal c0 with
  | some d0 =>
    (match hexVal c1 with
     | some d1 => (16 * d0 + d1) % 256
     | none => d0 % 256)
  | none =>
    if isStrtoulSpace c0 then
      (match hexVal c1 with | some d => d % 256 | none => 0)
    else if c0 = '+' then
      (match hexVal c1 with | some d => d % 256 | none => 0)
    else if c0 = '-' then
      (match hexVal c1 with
       | some d => ((2 ^ 64 - d) % 2 ^ 64) % 256
       | none => 0)
    else 0

/-- Offset of the first hex character of byte `i` in the input string of
`uuid_new`.  The parse loop advances the cursor by 2 after each byte, plus
one extra after bytes 3, 5, 7 and 9 (skipping the dashes at offsets
8, 13, 18, 23), so byte `i` starts at `2 i` plus the number of dashes
already skipped. -/
def byte_pos (i : Nat) : Nat :=
  if i < 4 then 2 * i
  else if i < 6 then 2 * i + 1
  else if i < 8 then 2 * i + 2
  else if i < 10 then 2 * i + 3
  else 2 * i + 4

/-- `bt_uuid_t* uuid_new(const char* uuid_string)`.

Returns NULL (here `none`) when `strlen < 36` or any of the characters at
offsets 8, 13, 18, 23 is not a dash; otherwise builds the 16 bytes by
converting consecutive 2-character chunks with `strtoul`, skipping the four
dashes positionally.  The default value handed to `getD` is never read:
every offset accessed is `< 36 ≤ length`. -/
def uuid_new (s : List Char) : Option (List Nat) :=
  if s.length < 36 then none
  else if s.getD 8 '\x00' ≠ '-' ∨ s.getD 13 '\x00' ≠ '-' ∨
          s.getD 18 '\x00' ≠ '-' ∨ s.getD 23 '\x00' ≠ '-' then none
  else some ((List.range 16).map fun i =>
    strtoul2 (s.getD (byte_pos i) '\x00') (s.getD (byte_pos i + 1) '\x00'))

/-- `bool uuid_is_empty(const bt_uuid_t* uuid)`:
`!uuid || !memcmp(uuid, &empty_uuid, sizeof(bt_uuid_t))`. -/
def uuid_is_empty (uuid : Option (List Nat)) : Bool :=
  match uuid with
  | none => true
  | some u => u == empty_uuid

/-- `static bool uuid_is_base(const bt_uuid_t* uuid)`: false for NULL,
otherwise bytes 4..15 must equal the corresponding bytes of `base_uuid`. -/
def uuid_is_base (uuid : Option (List Nat)) : Bool :=
  match uuid with
  | none => false
  | some u => (List.range' 4 12).all fun i => u.getD i 0 == base_uuid.getD i 0

/-- `bool uuid_128_to_16(const bt_uuid_t* uuid, uint16_t* uuid16)`, modelled
with explicit state passing for the output location `*uuid16`: the result is
`(return value, final contents of *uuid16)`.  On failure the output location
is not written.  On success `*uuid16 = (uu[2] << 8) + uu[3]`, stored into
`uint16_t` (modulo `2^16`). -/
def uuid_128_to_16 (u : List Nat) (uuid16 : Nat) : Bool × Nat :=
  if uuid_is_base (some u) then
    (true, (u.getD 2 0 * 2 ^ 8 + u.getD 3 0) % 2 ^ 16)
  else (false, uuid16)

/-- `bool uuid_128_to_32(const bt_uuid_t* uuid, uint32_t* uuid32)`, with the
output location `*uuid32` passed as state.  On success
`*uuid32 = (uu[0] << 24) + (uu[1] << 16) + (uu[2] << 8) + uu[3]`, stored into
`uint32_t` (modulo `2^32`). -/
def uuid_128_to_32 (u : List Nat) (uuid32 : Nat) : Bool × Nat :=
  if uuid_is_base (some u) then
    (true, (u.getD 0 0 * 2 ^ 24 + u.getD 1 0 * 2 ^ 16 +
            u.getD 2 0 * 2 ^ 8 + u.getD 3 0) % 2 ^ 32)
  else (false, uuid32)

/-- The value-level view of `uuid_128_to_16`: `some v` when the call returns
true having written `v`, `none` when it returns false. -/
def uuid_128_to_16_opt (u : List Nat) : Option Nat :=
  if (uuid_128_to_16 u 0).1 then some (uuid_128_to_16 u 0).2 else none

/-- The value-level view of `uuid_128_to_32`. -/
def uuid_128_to_32_opt (u : List Nat) : Option Nat :=
  if (uuid_128_to_32 u 0).1 then some (uuid_128_to_32 u 0).2 else none

/-- One output character of `snprintf("%02x", b)`: the lowercase hex digit
for a nibble value (`0-9` then `a-f`, ASCII). -/
def hexChar (n : Nat) : Char :=
  if n < 10 then Char.ofNat (48 + n) else Char.ofNat (87 + n)

/-- `snprintf("%02x", b)` for a `uint8_t` value `b`: exactly two lowercase,
zero-padded hex characters. -/
def hexPair (b : Nat) : List Char := [hexChar (b / 16), hexChar (b % 16)]

/-- `void uuid_to_string(const bt_uuid_t* uuid, uuid_string_t* uuid_string)`:
bytes 0-3, dash, bytes 4-5, dash, bytes 6-7, dash, bytes 8-9, dash,
bytes 10-15, each byte via `snprintf("%02x", uu[i])`. -/
def uuid_to_string (u : List Nat) : List Char :=
  (((List.range' 0 4).map fun i => hexPair (u.getD i 0)).flatten ++ ['-'] ++
   ((List.range' 4 2).map fun i => hexPair (u.getD i 0)).flatten ++ ['-'] ++
   ((List.range' 6 2).map fun i => hexPair (u.getD i 0)).flatten ++ ['-'] ++
   ((List.range' 8 2).map fun i => hexPair (u.getD i 0)).flatten ++ ['-'] ++
   ((List.range' 10 6).map fun i => hexPair (u.getD i 0)).flatten)

/-- The sixteen lowercase hex characters `uuid_to_string` can emit. -/
def lowerHexChars : List Char := "0123456789abcdef".toList

-- Sanity checks on concrete values (spec §8 scenarios).
example :
    uuid_new ("00001101-0000-1000-8000-00805f9b34fb".toList) =
      some [0x00, 0x00, 0x11, 0x01, 0x00, 0x00, 0x10, 0x00,
            0x80, 0x00, 0x00, 0x80, 0x5f, 0x9b, 0x34, 0xfb] := by decide

example :
    uuid_to_string empty_uuid =
      "00000000-0000-0000-0000-000000000000".toList := by decide

example : uuid_new ("00001101-0000-1000-8000".toList) = none := by decide

example : uuid_is_base (some base_uuid) = true := by decide

/-! ## Helper lemmas -/

theorem hexVal_lt {c : Char} {d : Nat} (h : hexVal c = some d) : d < 16 := by
  unfold hexVal at h
  split_ifs at h with h1 h2 h3
  · injection h with h'; omega
  · injection h with h'; omega
  · injection h with h'; omega

theorem strtoul2_lt (c0 c1 : Char) : strtoul2 c0 c1 < 256 := by
  unfold strtoul2
  cases h0 : hexVal c0 with
  | some d0 =>
    cases h1 : hexVal c1 with
    | some d1 => exact Nat.mod_lt _ (by norm_num)
    | none => exact Nat.mod_lt _ (by norm_num)
  | none =>
    split_ifs
    · cases h1 : hexVal c1 with
      | some d1 => exact Nat.mod_lt _ (by norm_num)
      | none => norm_num
    · cases h1 : hexVal c1 with
      | some d1 => exact Nat.mod_lt _ (by norm_num)
      | none => norm_num
    · cases h1 : hexVal c1 with
      | some d1 => exact Nat.mod_lt _ (by norm_num)
      | none => norm_num
    · norm_num

theorem strtoul2_hex {c0 c1 : Char} {d0 d1 : Nat}
    (h0 : hexVal c0 = some d0) (h1 : hexVal c1 = some d1) :
    strtoul2 c0 c1 = 16 * d0 + d1 := by
  have hd0 := hexVal_lt h0
  have hd1 := hexVal_lt h1
  unfold strtoul2
  rw [h0, h1]
  exact Nat.mod_eq_of_lt (by omega)

theorem wf_getD_lt {u : List Nat} (h : bt_uuid_wf u) {i : Nat} (hi : i < 16) :
    u.getD i 0 < 256 := by
  obtain ⟨hl, hb⟩ := h
  have hi' : i < u.length := by omega
  rw [List.getD_eq_getElem?_getD, List.getElem?_eq_getElem hi', Option.getD_some]
  exact hb _ (List.getElem_mem hi')

theorem uuid_len16_cases (u : List Nat) (h : u.length = 16) :
    ∃ b0 b1 b2 b3 b4 b5 b6 b7 b8 b9 b10 b11 b12 b13 b14 b15,
      u = [b0, b1, b2, b3, b4, b5, b6, b7,
           b8, b9, b10, b11, b12, b13, b14, b15] := by
  rcases u with _ | ⟨b0, u⟩; · simp at h
  rcases u with _ | ⟨b1, u⟩; · simp at h
  rcases u with _ | ⟨b2, u⟩; · simp at h
  rcases u with _ | ⟨b3, u⟩; · simp at h
  rcases u with _ | ⟨b4, u⟩; · simp at h
  rcases u with _ | ⟨b5, u⟩; · simp at h
  rcases u with _ | ⟨b6, u⟩; · simp at h
  rcases u with _ | ⟨b7, u⟩; · simp at h
  rcases u with _ | ⟨b8, u⟩; · simp at h
  rcases u with _ | ⟨b9, u⟩; · simp at h
  rcases u with _ | ⟨b10, u⟩; · simp at h
  rcases u with _ | ⟨b11, u⟩; · simp at h
  rcases u with _ | ⟨b12, u⟩; · simp at h
  rcases u with _ | ⟨b13, u⟩; · simp at h
  rcases u with _ | ⟨b14, u⟩; · simp at h
  rcases u with _ | ⟨b15, u⟩; · simp at h
  have hu : u = [] := by
    simp only [List.length_cons] at h
    exact List.length_eq_zero.mp (by omega)
  subst hu
  exact ⟨b0, b1, b2, b3, b4, b5, b6, b7, b8, b9, b10, b11, b12, b13, b14, b15,
         rfl⟩

/-! ## Claim theorems -/

/-- C3: `uuid_new` returns failure (NULL) if and only if the input's length
is less than 36 or one of the characters at offsets 8, 13, 18, 23 is not a
dash; and on success the returned UUID is a complete, well-formed 16-byte
value (so no partial or corrupt UUID is ever returned on failure). -/
theorem uuid_new_failure_iff (s : List Char) :
    (uuid_new s = none ↔
      (s.length < 36 ∨ s.getD 8 '\x00' ≠ '-' ∨ s.getD 13 '\x00' ≠ '-' ∨
       s.getD 18 '\x00' ≠ '-' ∨ s.getD 23 '\x00' ≠ '-')) ∧
    (∀ u, uuid_new s = some u → u.length = 16 ∧ ∀ b ∈ u, b < 256) := by
  constructor
  · unfold uuid_new
    split_ifs with h1 h2
    · exact iff_of_true rfl (Or.inl h1)
    · exact iff_of_true rfl (Or.inr h2)
    · refine iff_of_false (by simp) ?_
      push_neg at h2
      intro hor
      rcases hor with h | h | h | h | h
      · exact h1 h
      · exact h h2.1
      · exact h h2.2.1
      · exact h h2.2.2.1
      · exact h h2.2.2.2
  · intro u hu
    unfold uuid_new at hu
    split_ifs at hu
    injection hu with hu'
    subst hu'
    refine ⟨by simp, ?_⟩
    intro b hb
    simp only [List.mem_map] at hb
    obtain ⟨i, -, rfl⟩ := hb
    exact strtoul2_lt _ _

/-- C3 witness: scenario 4 of the spec (a too-short string) fails, and a
successful parse yields a well-formed 16-byte value. -/
theorem uuid_new_failure_iff_witness :
    uuid_new ("00001101-0000-1000-8000".toList) = none ∧
    ∀ u, uuid_new ("00001101-0000-1000-8000-00805f9b34fb".toList) = some u →
      u.length = 16 ∧ ∀ b ∈ u, b < 256 :=
  ⟨(uuid_new_failure_iff _).1.mpr (Or.inl (by decide)),
   (uuid_new_failure_iff _).2⟩

/-- C8: `uuid_is_empty` is true exactly for an absent (NULL) reference or a
UUID whose 16 bytes are all zero, and false for any UUID with a non-zero
byte. -/
theorem uuid_is_empty_spec :
    uuid_is_empty none = true ∧
    ∀ u : List Nat, bt_uuid_wf u →
      (uuid_is_empty (some u) = true ↔ ∀ b ∈ u, b = 0) := by
  refine ⟨rfl, fun u hu => ?_⟩
  simp only [uuid_is_empty, beq_iff_eq, empty_uuid]
  constructor
  · rintro rfl b hb
    exact List.eq_of_mem_replicate hb
  · intro h
    exact List.eq_replicate_iff.mpr ⟨hu.1, h⟩

/-- C8 witness: the all-zero UUID is well-formed and empty. -/
theorem uuid_is_empty_spec_witness :
    bt_uuid_wf empty_uuid ∧ uuid_is_empty (some empty_uuid) = true :=
  ⟨by decide, (uuid_is_empty_spec.2 empty_uuid (by decide)).mpr (by decide)⟩

/-- C6: `uuid_is_base` is false for an absent reference; for a present UUID
it is true iff bytes 4..15 equal the corresponding bytes of `base_uuid`; and
it never examines bytes 0-3: two UUIDs agreeing on bytes 4..15 get the same
answer. -/
theorem uuid_is_base_spec :
    uuid_is_base none = false ∧
    (∀ u : List Nat,
      (uuid_is_base (some u) = true ↔
        ∀ i, 4 ≤ i → i < 16 → u.getD i 0 = base_uuid.getD i 0)) ∧
    (∀ u v : List Nat,
      (∀ i, 4 ≤ i → i < 16 → u.getD i 0 = v.getD i 0) →
      uuid_is_base (some u) = uuid_is_base (some v)) := by
  refine ⟨rfl, fun u => ?_, fun u v hagree => ?_⟩
  · simp only [uuid_is_base, List.all_eq_true, beq_iff_eq]
    constructor
    · intro h i h4 h16
      exact h i (List.mem_range'_1.mpr ⟨h4, by omega⟩)
    · intro h i hi
      obtain ⟨h4, hlt⟩ := List.mem_range'_1.mp hi
      exact h i h4 (by omega)
  · rw [Bool.eq_iff_iff]
    simp only [uuid_is_base, List.all_eq_true, beq_iff_eq]
    constructor
    · intro h i hi
      obtain ⟨h4, hlt⟩ := List.mem_range'_1.mp hi
      rw [← hagree i h4 (by omega)]
      exact h i hi
    · intro h i hi
      obtain ⟨h4, hlt⟩ := List.mem_range'_1.mp hi
      rw [hagree i h4 (by omega)]
      exact h i hi

/-- C6 witness: `base_uuid` itself is base-derived, and changing only its
bytes 0-3 keeps `uuid_is_base` true. -/
theorem uuid_is_base_spec_witness :
    uuid_is_base (some base_uuid) = true ∧
    uuid_is_base (some ([0x12, 0x34, 0x56, 0x78] ++ base_uuid.drop 4)) =
      uuid_is_base (some base_uuid) :=
  ⟨(uuid_is_base_spec.2.1 base_uuid).mpr (by decide),
   uuid_is_base_spec.2.2 _ base_uuid (by decide)⟩

/-- C5: `uuid_128_to_16` and `uuid_128_to_32` return false exactly when the
UUID is not base-derived, and in that case they do not write the caller's
output location. -/
theorem uuid_128_narrow_failure (u : List Nat) (out : Nat) :
    ((uuid_128_to_16 u out).1 = false ↔ uuid_is_base (some u) = false) ∧
    ((uuid_128_to_16 u out).1 = false → (uuid_128_to_16 u out).2 = out) ∧
    ((uuid_128_to_32 u out).1 = false ↔ uuid_is_base (some u) = false) ∧
    ((uuid_128_to_32 u out).1 = false → (uuid_128_to_32 u out).2 = out) := by
  unfold uuid_128_to_16 uuid_128_to_32
  by_cases h : uuid_is_base (some u) = true <;> simp [h]

/-- C5 witness: on the all-zero UUID (not base-derived) both narrowings
return false and leave the output value 7 unchanged. -/
theorem uuid_128_narrow_failure_witness :
    (uuid_128_to_16 empty_uuid 7).1 = false ∧
    (uuid_128_to_16 empty_uuid 7).2 = 7 ∧
    (uuid_128_to_32 empty_uuid 7).1 = false ∧
    (uuid_128_to_32 empty_uuid 7).2 = 7 :=
  ⟨(uuid_128_narrow_failure empty_uuid 7).1.mpr (by decide),
   (uuid_128_narrow_failure empty_uuid 7).2.1
     ((uuid_128_narrow_failure empty_uuid 7).1.mpr (by decide)),
   (uuid_128_narrow_failure empty_uuid 7).2.2.1.mpr (by decide),
   (uuid_128_narrow_failure empty_uuid 7).2.2.2
     ((uuid_128_narrow_failure empty_uuid 7).2.2.1.mpr (by decide))⟩

/-- C10: an all-zero (empty) UUID is never base-derived, so both narrowing
conversions fail on it. -/
theorem uuid_empty_not_base (u : List Nat)
    (h : uuid_is_empty (some u) = true) :
    uuid_is_base (some u) = false ∧
    uuid_128_to_16_opt u = none ∧ uuid_128_to_32_opt u = none := by
  have hu : u = empty_uuid := by
    simpa [uuid_is_empty, beq_iff_eq] using h
  subst hu
  exact ⟨by decide, by decide, by decide⟩

/-- C10 witness: instantiated at the all-zero UUID. -/
theorem uuid_empty_not_base_witness :
    uuid_is_empty (some empty_uuid) = true ∧
    uuid_is_base (some empty_uuid) = false ∧
    uuid_128_to_16_opt empty_uuid = none ∧
    uuid_128_to_32_opt empty_uuid = none :=
  ⟨by decide, uuid_empty_not_base empty_uuid (by decide)⟩

set_option maxRecDepth 4000 in
/-- A byte value survives the format-then-parse nibble round trip: rendering
it as two lowercase hex characters and converting the pair back with
`strtoul` recovers the byte. -/
theorem strtoul2_hexPair_roundtrip :
    ∀ b < 256, strtoul2 (hexChar (b / 16)) (hexChar (b % 16)) = b := by
  decide

set_option maxRecDepth 4000 in
set_option maxHeartbeats 1600000 in
/-- C1: parsing the canonical string produced by `uuid_to_string` recovers
the original UUID byte for byte. -/
theorem parse_format_roundtrip (u : List Nat) (h : bt_uuid_wf u) :
    uuid_new (uuid_to_string u) = some u := by
  obtain ⟨hl, hb⟩ := h
  obtain ⟨b0, b1, b2, b3, b4, b5, b6, b7, b8, b9, b10, b11, b12, b13, b14,
          b15, rfl⟩ := uuid_len16_cases u hl
  have e : uuid_new (uuid_to_string
      [b0, b1, b2, b3, b4, b5, b6, b7, b8, b9, b10, b11, b12, b13, b14, b15]) =
      some [strtoul2 (hexChar (b0 / 16)) (hexChar (b0 % 16)),
            strtoul2 (hexChar (b1 / 16)) (hexChar (b1 % 16)),
            strtoul2 (hexChar (b2 / 16)) (hexChar (b2 % 16)),
            strtoul2 (hexChar (b3 / 16)) (hexChar (b3 % 16)),
            strtoul2 (hexChar (b4 / 16)) (hexChar (b4 % 16)),
            strtoul2 (hexChar (b5 / 16)) (hexChar (b5 % 16)),
            strtoul2 (hexChar (b6 / 16)) (hexChar (b6 % 16)),
            strtoul2 (hexChar (b7 / 16)) (hexChar (b7 % 16)),
            strtoul2 (hexChar (b8 / 16)) (hexChar (b8 % 16)),
            strtoul2 (hexChar (b9 / 16)) (hexChar (b9 % 16)),
            strtoul2 (hexChar (b10 / 16)) (hexChar (b10 % 16)),
            strtoul2 (hexChar (b11 / 16)) (hexChar (b11 % 16)),
            strtoul2 (hexChar (b12 / 16)) (hexChar (b12 % 16)),
            strtoul2 (hexChar (b13 / 16)) (hexChar (b13 % 16)),
            strtoul2 (hexChar (b14 / 16)) (hexChar (b14 % 16)),
            strtoul2 (hexChar (b15 / 16)) (hexChar (b15 % 16))] := rfl
  rw [e,
      strtoul2_hexPair_roundtrip b0 (hb b0 (by simp)),
      strtoul2_hexPair_roundtrip b1 (hb b1 (by simp)),
      strtoul2_hexPair_roundtrip b2 (hb b2 (by simp)),
      strtoul2_hexPair_roundtrip b3 (hb b3 (by simp)),
      strtoul2_hexPair_roundtrip b4 (hb b4 (by simp)),
      strtoul2_hexPair_roundtrip b5 (hb b5 (by simp)),
      strtoul2_hexPair_roundtrip b6 (hb b6 (by simp)),
      strtoul2_hexPair_roundtrip b7 (hb b7 (by simp)),
      strtoul2_hexPair_roundtrip b8 (hb b8 (by simp)),
      strtoul2_hexPair_roundtrip b9 (hb b9 (by simp)),
      strtoul2_hexPair_roundtrip b10 (hb b10 (by simp)),
      strtoul2_hexPair_roundtrip b11 (hb b11 (by simp)),
      strtoul2_hexPair_roundtrip b12 (hb b12 (by simp)),
      strtoul2_hexPair_roundtrip b13 (hb b13 (by simp)),
      strtoul2_hexPair_roundtrip b14 (hb b14 (by simp)),
      strtoul2_hexPair_roundtrip b15 (hb b15 (by simp))]

/-- C1 witness: the round trip instantiated at the SDP base UUID. -/
theorem parse_format_roundtrip_witness :
    bt_uuid_wf base_uuid ∧
    uuid_new (uuid_to_string base_uuid) = some base_uuid :=
  ⟨by decide, parse_format_roundtrip base_uuid (by decide)⟩

/-- Every nibble is rendered by `hexChar` as one of the sixteen lowercase
hex characters. -/
theorem hexChar_mem_lowerHex : ∀ n, n < 16 → hexChar n ∈ lowerHexChars := by
  decide

set_option maxRecDepth 4000 in
set_option maxHeartbeats 1600000 in
/-- C7: `uuid_to_string` produces exactly 36 characters, with dashes at
offsets 8, 13, 18, 23, byte `i` rendered as its zero-padded hex pair
starting at offset `byte_pos i` (so the bytes appear in order, grouped
4, 2, 2, 2, 6), and every non-dash position holding a lowercase hex digit
(hence the four dash offsets are the only dashes). -/
theorem format_structure (u : List Nat) (h : bt_uuid_wf u) :
    (uuid_to_string u).length = 36 ∧
    (uuid_to_string u).getD 8 '\x00' = '-' ∧
    (uuid_to_string u).getD 13 '\x00' = '-' ∧
    (uuid_to_string u).getD 18 '\x00' = '-' ∧
    (uuid_to_string u).getD 23 '\x00' = '-' ∧
    (∀ i, i < 16 →
      (uuid_to_string u).getD (byte_pos i) '\x00' =
        hexChar (u.getD i 0 / 16) ∧
      (uuid_to_string u).getD (byte_pos i + 1) '\x00' =
        hexChar (u.getD i 0 % 16)) ∧
    (∀ i, i < 36 → i ≠ 8 → i ≠ 13 → i ≠ 18 → i ≠ 23 →
      (uuid_to_string u).getD i '\x00' ∈ lowerHexChars) := by
  obtain ⟨hl, hb⟩ := h
  obtain ⟨b0, b1, b2, b3, b4, b5, b6, b7, b8, b9, b10, b11, b12, b13, b14,
          b15, rfl⟩ := uuid_len16_cases u hl
  have B0 : b0 < 256 := hb b0 (by simp)
  have B1 : b1 < 256 := hb b1 (by simp)
  have B2 : b2 < 256 := hb b2 (by simp)
  have B3 : b3 < 256 := hb b3 (by simp)
  have B4 : b4 < 256 := hb b4 (by simp)
  have B5 : b5 < 256 := hb b5 (by simp)
  have B6 : b6 < 256 := hb b6 (by simp)
  have B7 : b7 < 256 := hb b7 (by simp)
  have B8 : b8 < 256 := hb b8 (by simp)
  have B9 : b9 < 256 := hb b9 (by simp)
  have B10 : b10 < 256 := hb b10 (by simp)
  have B11 : b11 < 256 := hb b11 (by simp)
  have B12 : b12 < 256 := hb b12 (by simp)
  have B13 : b13 < 256 := hb b13 (by simp)
  have B14 : b14 < 256 := hb b14 (by simp)
  have B15 : b15 < 256 := hb b15 (by simp)
  have echars : uuid_to_string
      [b0, b1, b2, b3, b4, b5, b6, b7, b8, b9, b10, b11, b12, b13, b14, b15] =
      [hexChar (b0 / 16), hexChar (b0 % 16), hexChar (b1 / 16),
       hexChar (b1 % 16), hexChar (b2 / 16), hexChar (b2 % 16),
       hexChar (b3 / 16), hexChar (b3 % 16), '-',
       hexChar (b4 / 16), hexChar (b4 % 16), hexChar (b5 / 16),
       hexChar (b5 % 16), '-',
       hexChar (b6 / 16), hexChar (b6 % 16), hexChar (b7 / 16),
       hexChar (b7 % 16), '-',
       hexChar (b8 / 16), hexChar (b8 % 16), hexChar (b9 / 16),
       hexChar (b9 % 16), '-',
       hexChar (b10 / 16), hexChar (b10 % 16), hexChar (b11 / 16),
       hexChar (b11 % 16), hexChar (b12 / 16), hexChar (b12 % 16),
       hexChar (b13 / 16), hexChar (b13 % 16), hexChar (b14 / 16),
       hexChar (b14 % 16), hexChar (b15 / 16), hexChar (b15 % 16)] := rfl
  rw [echars]
  refine ⟨rfl, rfl, rfl, rfl, rfl, ?_, ?_⟩
  · intro i hi
    interval_cases i <;> exact ⟨rfl, rfl⟩
  · intro i h36 hi8 hi13 hi18 hi23
    interval_cases i <;>
      first
        | omega
        | exact hexChar_mem_lowerHex _ (Nat.mod_lt _ (by norm_num))
        | exact hexChar_mem_lowerHex _ (Nat.div_lt_of_lt_mul B0)
        | exact hexChar_mem_lowerHex _ (Nat.div_lt_of_lt_mul B1)
        | exact hexChar_mem_lowerHex _ (Nat.div_lt_of_lt_mul B2)
        | exact hexChar_mem_lowerHex _ (Nat.div_lt_of_lt_mul B3)
        | exact hexChar_mem_lowerHex _ (Nat.div_lt_of_lt_mul B4)
        | exact hexChar_mem_lowerHex _ (Nat.div_lt_of_lt_mul B5)
        | exact hexChar_mem_lowerHex _ (Nat.div_lt_of_lt_mul B6)
        | exact hexChar_mem_lowerHex _ (Nat.div_lt_of_lt_mul B7)
        | exact hexChar_mem_lowerHex _ (Nat.div_lt_of_lt_mul B8)
        | exact hexChar_mem_lowerHex _ (Nat.div_lt_of_lt_mul B9)
        | exact hexChar_mem_lowerHex _ (Nat.div_lt_of_lt_mul B10)
        | exact hexChar_mem_lowerHex _ (Nat.div_lt_of_lt_mul B11)
        | exact hexChar_mem_lowerHex _ (Nat.div_lt_of_lt_mul B12)
        | exact hexChar_mem_lowerHex _ (Nat.div_lt_of_lt_mul B13)
        | exact hexChar_mem_lowerHex _ (Nat.div_lt_of_lt_mul B14)
        | exact hexChar_mem_lowerHex _ (Nat.div_lt_of_lt_mul B15)

/-- C7 witness: the structure facts instantiated at the SDP base UUID. -/
theorem format_structure_witness :
    bt_uuid_wf base_uuid ∧
    (uuid_to_string base_uuid).length = 36 ∧
    (uuid_to_string base_uuid).getD 8 '\x00' = '-' :=
  ⟨by decide, (format_structure base_uuid (by decide)).1,
   (format_structure base_uuid (by decide)).2.1⟩

/-- Formatting maps the hex value of a character back to that character,
lowercased: `hexChar` emits the lowercase digit for the nibble `strtoul`
read. -/
theorem hexChar_toLower {c : Char} {d : Nat} (h : hexVal c = some d) :
    hexChar d = Char.toLower c := by
  unfold hexVal at h
  split_ifs at h with h1 h2 h3
  · injection h with h'
    subst h'
    have e1 : hexChar (c.toNat - 48) = c := by
      unfold hexChar
      rw [if_pos (by omega)]
      have e : 48 + (c.toNat - 48) = c.toNat := by omega
      rw [e, Char.ofNat_toNat]
    have e2 : Char.toLower c = c := by
      simp only [Char.toLower]
      rw [if_neg (by omega)]
    rw [e1, e2]
  · injection h with h'
    subst h'
    have e1 : hexChar (c.toNat - 87) = c := by
      unfold hexChar
      rw [if_neg (by omega)]
      have e : 87 + (c.toNat - 87) = c.toNat := by omega
      rw [e, Char.ofNat_toNat]
    have e2 : Char.toLower c = c := by
      simp only [Char.toLower]
      rw [if_neg (by omega)]
    rw [e1, e2]
  · injection h with h'
    subst h'
    have e1 : hexChar (c.toNat - 55) = Char.ofNat (c.toNat + 32) := by
      unfold hexChar
      rw [if_neg (by omega)]
      have e : 87 + (c.toNat - 55) = c.toNat + 32 := by omega
      rw [e]
    have e2 : Char.toLower c = Char.ofNat (c.toNat + 32) := by
      simp only [Char.toLower]
      rw [if_pos (by omega)]
    rw [e1, e2]

/-- A parsed byte `16 * d0 + d1` formats back to the lowercased pair of
characters it was read from. -/
theorem hexPair_toLower {c0 c1 : Char} {d0 d1 : Nat}
    (h0 : hexVal c0 = some d0) (h1 : hexVal c1 = some d1) :
    hexPair (16 * d0 + d1) = [Char.toLower c0, Char.toLower c1] := by
  have hd0 := hexVal_lt h0
  have hd1 := hexVal_lt h1
  unfold hexPair
  have e1 : (16 * d0 + d1) / 16 = d0 := by omega
  have e2 : (16 * d0 + d1) % 16 = d1 := by omega
  rw [e1, e2, hexChar_toLower h0, hexChar_toLower h1]

/-- A 36-character string is a literal list of 36 characters. -/
theorem string_len36_cases (s : List Char) (h : s.length = 36) :
    ∃ c0 c1 c2 c3 c4 c5 c6 c7 c8 c9 c10 c11 c12 c13 c14 c15 c16 c17 c18 c19 c20 c21 c22 c23 c24 c25 c26 c27 c28 c29 c30 c31 c32 c33 c34 c35,
      s = [c0, c1, c2, c3, c4, c5, c6, c7, c8, c9, c10, c11, c12, c13, c14, c15, c16, c17, c18, c19, c20, c21, c22, c23, c24, c25, c26, c27, c28, c29, c30, c31, c32, c33, c34, c35] := by
  rcases s with _ | ⟨c0, s⟩; · simp at h
  rcases s with _ | ⟨c1, s⟩; · simp at h
  rcases s with _ | ⟨c2, s⟩; · simp at h
  rcases s with _ | ⟨c3, s⟩; · simp at h
  rcases s with _ | ⟨c4, s⟩; · simp at h
  rcases s with _ | ⟨c5, s⟩; · simp at h
  rcases s with _ | ⟨c6, s⟩; · simp at h
  rcases s with _ | ⟨c7, s⟩; · simp at h
  rcases s with _ | ⟨c8, s⟩; · simp at h
  rcases s with _ | ⟨c9, s⟩; · simp at h
  rcases s with _ | ⟨c10, s⟩; · simp at h
  rcases s with _ | ⟨c11, s⟩; · simp at h
  rcases s with _ | ⟨c12, s⟩; · simp at h
  rcases s with _ | ⟨c13, s⟩; · simp at h
  rcases s with _ | ⟨c14, s⟩; · simp at h
  rcases s with _ | ⟨c15, s⟩; · simp at h
  rcases s with _ | ⟨c16, s⟩; · simp at h
  rcases s with _ | ⟨c17, s⟩; · simp at h
  rcases s with _ | ⟨c18, s⟩; · simp at h
  rcases s with _ | ⟨c19, s⟩; · simp at h
  rcases s with _ | ⟨c20, s⟩; · simp at h
  rcases s with _ | ⟨c21, s⟩; · simp at h
  rcases s with _ | ⟨c22, s⟩; · simp at h
  rcases s with _ | ⟨c23, s⟩; · simp at h
  rcases s with _ | ⟨c24, s⟩; · simp at h
  rcases s with _ | ⟨c25, s⟩; · simp at h
  rcases s with _ | ⟨c26, s⟩; · simp at h
  rcases s with _ | ⟨c27, s⟩; · simp at h
  rcases s with _ | ⟨c28, s⟩; · simp at h
  rcases s with _ | ⟨c29, s⟩; · simp at h
  rcases s with _ | ⟨c30, s⟩; · simp at h
  rcases s with _ | ⟨c31, s⟩; · simp at h
  rcases s with _ | ⟨c32, s⟩; · simp at h
  rcases s with _ | ⟨c33, s⟩; · simp at h
  rcases s with _ | ⟨c34, s⟩; · simp at h
  rcases s with _ | ⟨c35, s⟩; · simp at h
  have hs : s = [] := by
    simp only [List.length_cons] at h
    exact List.length_eq_zero.mp (by omega)
  subst hs
  exact ⟨c0, c1, c2, c3, c4, c5, c6, c7, c8, c9, c10, c11, c12, c13, c14, c15, c16, c17, c18, c19, c20, c21, c22, c23, c24, c25, c26, c27, c28, c29, c30, c31, c32, c33, c34, c35, rfl⟩

/-- The high nibble of a parsed byte formats back to the lowercased first
character of its hex pair. -/
theorem hexChar_hi {c0 c1 : Char} {d0 d1 : Nat}
    (h0 : hexVal c0 = some d0) (h1 : hexVal c1 = some d1) :
    hexChar ((16 * d0 + d1) / 16) = Char.toLower c0 := by
  have e : (16 * d0 + d1) / 16 = d0 := by
    have := hexVal_lt h1
    omega
  rw [e]
  exact hexChar_toLower h0

/-- The low nibble of a parsed byte formats back to the lowercased second
character of its hex pair. -/
theorem hexChar_lo {c0 c1 : Char} {d0 d1 : Nat}
    (_h0 : hexVal c0 = some d0) (h1 : hexVal c1 = some d1) :
    hexChar ((16 * d0 + d1) % 16) = Char.toLower c1 := by
  have e : (16 * d0 + d1) % 16 = d1 := by
    have := hexVal_lt h1
    omega
  rw [e]
  exact hexChar_toLower h1

set_option maxRecDepth 8000 in
set_option maxHeartbeats 4000000 in
/-- C2: parsing a syntactically valid canonical 36-character string (hex
digits everywhere except dashes at offsets 8, 13, 18, 23) succeeds, and
formatting the parsed UUID reproduces the string with its hex digits
normalized to lowercase. -/
theorem format_parse_roundtrip (s : List Char)
    (hlen : s.length = 36)
    (h8 : s.getD 8 '\x00' = '-') (h13 : s.getD 13 '\x00' = '-')
    (h18 : s.getD 18 '\x00' = '-') (h23 : s.getD 23 '\x00' = '-')
    (hhex : ∀ i, i < 36 → i ≠ 8 → i ≠ 13 → i ≠ 18 → i ≠ 23 →
      (hexVal (s.getD i '\x00')).isSome = true) :
    (uuid_new s).map uuid_to_string = some (s.map Char.toLower) := by
  obtain ⟨c0, c1, c2, c3, c4, c5, c6, c7, c8, c9, c10, c11, c12, c13, c14, c15, c16, c17, c18, c19, c20, c21, c22, c23, c24, c25, c26, c27, c28, c29, c30, c31, c32, c33, c34, c35, rfl⟩ := string_len36_cases s hlen
  have e8 : c8 = '-' := h8
  have e13 : c13 = '-' := h13
  have e18 : c18 = '-' := h18
  have e23 : c23 = '-' := h23
  subst e8 e13 e18 e23
  have t0 : (hexVal c0).isSome = true :=
    hhex 0 (by decide) (by decide) (by decide) (by decide) (by decide)
  have t1 : (hexVal c1).isSome = true :=
    hhex 1 (by decide) (by decide) (by decide) (by decide) (by decide)
  have t2 : (hexVal c2).isSome = true :=
    hhex 2 (by decide) (by decide) (by decide) (by decide) (by decide)
  have t3 : (hexVal c3).isSome = true :=
    hhex 3 (by decide) (by decide) (by decide) (by decide) (by decide)
  have t4 : (hexVal c4).isSome = true :=
    hhex 4 (by decide) (by decide) (by decide) (by decide) (by decide)
  have t5 : (hexVal c5).isSome = true :=
    hhex 5 (by decide) (by decide) (by decide) (by decide) (by decide)
  have t6 : (hexVal c6).isSome = true :=
    hhex 6 (by decide) (by decide) (by decide) (by decide) (by decide)
  have t7 : (hexVal c7).isSome = true :=
    hhex 7 (by decide) (by decide) (by decide) (by decide) (by decide)
  have t9 : (hexVal c9).isSome = true :=
    hhex 9 (by decide) (by decide) (by decide) (by decide) (by decide)
  have t10 : (hexVal c10).isSome = true :=
    hhex 10 (by decide) (by decide) (by decide) (by decide) (by decide)
  have t11 : (hexVal c11).isSome = true :=
    hhex 11 (by decide) (by decide) (by decide) (by decide) (by decide)
  have t12 : (hexVal c12).isSome = true :=
    hhex 12 (by decide) (by decide) (by decide) (by decide) (by decide)
  have t14 : (hexVal c14).isSome = true :=
    hhex 14 (by decide) (by decide) (by decide) (by decide) (by decide)
  have t15 : (hexVal c15).isSome = true :=
    hhex 15 (by decide) (by decide) (by decide) (by decide) (by decide)
  have t16 : (hexVal c16).isSome = true :=
    hhex 16 (by decide) (by decide) (by decide) (by decide) (by decide)
  have t17 : (hexVal c17).isSome = true :=
    hhex 17 (by decide) (by decide) (by decide) (by decide) (by decide)
  have t19 : (hexVal c19).isSome = true :=
    hhex 19 (by decide) (by decide) (by decide) (by decide) (by decide)
  have t20 : (hexVal c20).isSome = true :=
    hhex 20 (by decide) (by decide) (by decide) (by decide) (by decide)
  have t21 : (hexVal c21).isSome = true :=
    hhex 21 (by decide) (by decide) (by decide) (by decide) (by decide)
  have t22 : (hexVal c22).isSome = true :=
    hhex 22 (by decide) (by decide) (by decide) (by decide) (by decide)
  have t24 : (hexVal c24).isSome = true :=
    hhex 24 (by decide) (by decide) (by decide) (by decide) (by decide)
  have t25 : (hexVal c25).isSome = true :=
    hhex 25 (by decide) (by decide) (by decide) (by decide) (by decide)
  have t26 : (hexVal c26).isSome = true :=
    hhex 26 (by decide) (by decide) (by decide) (by decide) (by decide)
  have t27 : (hexVal c27).isSome = true :=
    hhex 27 (by decide) (by decide) (by decide) (by decide) (by decide)
  have t28 : (hexVal c28).isSome = true :=
    hhex 28 (by decide) (by decide) (by decide) (by decide) (by decide)
  have t29 : (hexVal c29).isSome = true :=
    hhex 29 (by decide) (by decide) (by decide) (by decide) (by decide)
  have t30 : (hexVal c30).isSome = true :=
    hhex 30 (by decide) (by decide) (by decide) (by decide) (by decide)
  have t31 : (hexVal c31).isSome = true :=
    hhex 31 (by decide) (by decide) (by decide) (by decide) (by decide)
  have t32 : (hexVal c32).isSome = true :=
    hhex 32 (by decide) (by decide) (by decide) (by decide) (by decide)
  have t33 : (hexVal c33).isSome = true :=
    hhex 33 (by decide) (by decide) (by decide) (by decide) (by decide)
  have t34 : (hexVal c34).isSome = true :=
    hhex 34 (by decide) (by decide) (by decide) (by decide) (by decide)
  have t35 : (hexVal c35).isSome = true :=
    hhex 35 (by decide) (by decide) (by decide) (by decide) (by decide)
  obtain ⟨d0, hd0⟩ := Option.isSome_iff_exists.mp t0
  obtain ⟨d1, hd1⟩ := Option.isSome_iff_exists.mp t1
  obtain ⟨d2, hd2⟩ := Option.isSome_iff_exists.mp t2
  obtain ⟨d3, hd3⟩ := Option.isSome_iff_exists.mp t3
  obtain ⟨d4, hd4⟩ := Option.isSome_iff_exists.mp t4
  obtain ⟨d5, hd5⟩ := Option.isSome_iff_exists.mp t5
  obtain ⟨d6, hd6⟩ := Option.isSome_iff_exists.mp t6
  obtain ⟨d7, hd7⟩ := Option.isSome_iff_exists.mp t7
  obtain ⟨d9, hd9⟩ := Option.isSome_iff_exists.mp t9
  obtain ⟨d10, hd10⟩ := Option.isSome_iff_exists.mp t10
  obtain ⟨d11, hd11⟩ := Option.isSome_iff_exists.mp t11
  obtain ⟨d12, hd12⟩ := Option.isSome_iff_exists.mp t12
  obtain ⟨d14, hd14⟩ := Option.isSome_iff_exists.mp t14
  obtain ⟨d15, hd15⟩ := Option.isSome_iff_exists.mp t15
  obtain ⟨d16, hd16⟩ := Option.isSome_iff_exists.mp t16
  obtain ⟨d17, hd17⟩ := Option.isSome_iff_exists.mp t17
  obtain ⟨d19, hd19⟩ := Option.isSome_iff_exists.mp t19
  obtain ⟨d20, hd20⟩ := Option.isSome_iff_exists.mp t20
  obtain ⟨d21, hd21⟩ := Option.isSome_iff_exists.mp t21
  obtain ⟨d22, hd22⟩ := Option.isSome_iff_exists.mp t22
  obtain ⟨d24, hd24⟩ := Option.isSome_iff_exists.mp t24
  obtain ⟨d25, hd25⟩ := Option.isSome_iff_exists.mp t25
  obtain ⟨d26, hd26⟩ := Option.isSome_iff_exists.mp t26
  obtain ⟨d27, hd27⟩ := Option.isSome_iff_exists.mp t27
  obtain ⟨d28, hd28⟩ := Option.isSome_iff_exists.mp t28
  obtain ⟨d29, hd29⟩ := Option.isSome_iff_exists.mp t29
  obtain ⟨d30, hd30⟩ := Option.isSome_iff_exists.mp t30
  obtain ⟨d31, hd31⟩ := Option.isSome_iff_exists.mp t31
  obtain ⟨d32, hd32⟩ := Option.isSome_iff_exists.mp t32
  obtain ⟨d33, hd33⟩ := Option.isSome_iff_exists.mp t33
  obtain ⟨d34, hd34⟩ := Option.isSome_iff_exists.mp t34
  obtain ⟨d35, hd35⟩ := Option.isSome_iff_exists.mp t35
  have e : uuid_new [c0, c1, c2, c3, c4, c5, c6, c7, '-', c9, c10, c11, c12, '-', c14, c15, c16, c17, '-', c19, c20, c21, c22, '-', c24, c25, c26, c27, c28, c29, c30, c31, c32, c33, c34, c35] =
      some [strtoul2 c0 c1, strtoul2 c2 c3, strtoul2 c4 c5, strtoul2 c6 c7, strtoul2 c9 c10, strtoul2 c11 c12, strtoul2 c14 c15, strtoul2 c16 c17, strtoul2 c19 c20, strtoul2 c21 c22, strtoul2 c24 c25, strtoul2 c26 c27, strtoul2 c28 c29, strtoul2 c30 c31, strtoul2 c32 c33, strtoul2 c34 c35] := rfl
  rw [e]
  simp only [Option.map_some']
  rw [strtoul2_hex hd0 hd1, strtoul2_hex hd2 hd3, strtoul2_hex hd4 hd5, strtoul2_hex hd6 hd7, strtoul2_hex hd9 hd10, strtoul2_hex hd11 hd12, strtoul2_hex hd14 hd15, strtoul2_hex hd16 hd17, strtoul2_hex hd19 hd20, strtoul2_hex hd21 hd22, strtoul2_hex hd24 hd25, strtoul2_hex hd26 hd27, strtoul2_hex hd28 hd29, strtoul2_hex hd30 hd31, strtoul2_hex hd32 hd33, strtoul2_hex hd34 hd35]
  have ef : uuid_to_string [16 * d0 + d1, 16 * d2 + d3, 16 * d4 + d5, 16 * d6 + d7, 16 * d9 + d10, 16 * d11 + d12, 16 * d14 + d15, 16 * d16 + d17, 16 * d19 + d20, 16 * d21 + d22, 16 * d24 + d25, 16 * d26 + d27, 16 * d28 + d29, 16 * d30 + d31, 16 * d32 + d33, 16 * d34 + d35] =
      [hexChar ((16 * d0 + d1) / 16),
       hexChar ((16 * d0 + d1) % 16),
       hexChar ((16 * d2 + d3) / 16),
       hexChar ((16 * d2 + d3) % 16),
       hexChar ((16 * d4 + d5) / 16),
       hexChar ((16 * d4 + d5) % 16),
       hexChar ((16 * d6 + d7) / 16),
       hexChar ((16 * d6 + d7) % 16),
       '-',
       hexChar ((16 * d9 + d10) / 16),
       hexChar ((16 * d9 + d10) % 16),
       hexChar ((16 * d11 + d12) / 16),
       hexChar ((16 * d11 + d12) % 16),
       '-',
       hexChar ((16 * d14 + d15) / 16),
       hexChar ((16 * d14 + d15) % 16),
       hexChar ((16 * d16 + d17) / 16),
       hexChar ((16 * d16 + d17) % 16),
       '-',
       hexChar ((16 * d19 + d20) / 16),
       hexChar ((16 * d19 + d20) % 16),
       hexChar ((16 * d21 + d22) / 16),
       hexChar ((16 * d21 + d22) % 16),
       '-',
       hexChar ((16 * d24 + d25) / 16),
       hexChar ((16 * d24 + d25) % 16),
       hexChar ((16 * d26 + d27) / 16),
       hexChar ((16 * d26 + d27) % 16),
       hexChar ((16 * d28 + d29) / 16),
       hexChar ((16 * d28 + d29) % 16),
       hexChar ((16 * d30 + d31) / 16),
       hexChar ((16 * d30 + d31) % 16),
       hexChar ((16 * d32 + d33) / 16),
       hexChar ((16 * d32 + d33) % 16),
       hexChar ((16 * d34 + d35) / 16),
       hexChar ((16 * d34 + d35) % 16)] := rfl
  rw [ef]
  rw [hexChar_hi hd0 hd1, hexChar_lo hd0 hd1,
      hexChar_hi hd2 hd3, hexChar_lo hd2 hd3,
      hexChar_hi hd4 hd5, hexChar_lo hd4 hd5,
      hexChar_hi hd6 hd7, hexChar_lo hd6 hd7,
      hexChar_hi hd9 hd10, hexChar_lo hd9 hd10,
      hexChar_hi hd11 hd12, hexChar_lo hd11 hd12,
      hexChar_hi hd14 hd15, hexChar_lo hd14 hd15,
      hexChar_hi hd16 hd17, hexChar_lo hd16 hd17,
      hexChar_hi hd19 hd20, hexChar_lo hd19 hd20,
      hexChar_hi hd21 hd22, hexChar_lo hd21 hd22,
      hexChar_hi hd24 hd25, hexChar_lo hd24 hd25,
      hexChar_hi hd26 hd27, hexChar_lo hd26 hd27,
      hexChar_hi hd28 hd29, hexChar_lo hd28 hd29,
      hexChar_hi hd30 hd31, hexChar_lo hd30 hd31,
      hexChar_hi hd32 hd33, hexChar_lo hd32 hd33,
      hexChar_hi hd34 hd35, hexChar_lo hd34 hd35]
  rfl

/-- C2 witness: a canonical string with uppercase hex digits parses and
formats back to its lowercase form. -/
theorem format_parse_roundtrip_witness :
    (uuid_new ("00001101-0000-1000-8000-00805F9B34FB".toList)).map
        uuid_to_string =
      some (("00001101-0000-1000-8000-00805F9B34FB".toList).map
        Char.toLower) :=
  format_parse_roundtrip ("00001101-0000-1000-8000-00805F9B34FB".toList)
    (by decide) (by decide) (by decide) (by decide) (by decide) (by decide)

/-- C4: for every base-derived UUID, `uuid_128_to_16` succeeds with the
16-bit value `(uu[2] << 8) + uu[3]` and `uuid_128_to_32` succeeds with the
32-bit big-endian value of bytes 0-3; in particular parsing
`"00001101-0000-1000-8000-00805f9b34fb"` and narrowing to 16 bits yields
`0x1101`. -/
theorem uuid_128_narrowing_values :
    (∀ u : List Nat, bt_uuid_wf u → uuid_is_base (some u) = true →
      uuid_128_to_16_opt u = some (u.getD 2 0 * 2 ^ 8 + u.getD 3 0) ∧
      uuid_128_to_32_opt u =
        some (u.getD 0 0 * 2 ^ 24 + u.getD 1 0 * 2 ^ 16 +
              u.getD 2 0 * 2 ^ 8 + u.getD 3 0)) ∧
    (uuid_new ("00001101-0000-1000-8000-00805f9b34fb".toList)).bind
        uuid_128_to_16_opt = some 0x1101 := by
  constructor
  · intro u hu hb
    have b0 := wf_getD_lt hu (show 0 < 16 by norm_num)
    have b1 := wf_getD_lt hu (show 1 < 16 by norm_num)
    have b2 := wf_getD_lt hu (show 2 < 16 by norm_num)
    have b3 := wf_getD_lt hu (show 3 < 16 by norm_num)
    unfold uuid_128_to_16_opt uuid_128_to_32_opt uuid_128_to_16 uuid_128_to_32
    rw [hb]
    simp only [if_true, if_pos]
    constructor
    · congr 1
      exact Nat.mod_eq_of_lt (by omega)
    · congr 1
      exact Nat.mod_eq_of_lt (by omega)
  · decide

/-- C4 witness: the universal part instantiated at the parsed UUID of
concrete scenario 1. -/
theorem uuid_128_narrowing_values_witness :
    uuid_128_to_16_opt
        [0x00, 0x00, 0x11, 0x01, 0x00, 0x00, 0x10, 0x00,
         0x80, 0x00, 0x00, 0x80, 0x5f, 0x9b, 0x34, 0xfb] = some 0x1101 ∧
    uuid_128_to_32_opt
        [0x00, 0x00, 0x11, 0x01, 0x00, 0x00, 0x10, 0x00,
         0x80, 0x00, 0x00, 0x80, 0x5f, 0x9b, 0x34, 0xfb] = some 0x1101 :=
  ⟨((uuid_128_narrowing_values.1 _ (by decide) (by decide)).1).trans
     (by decide),
   ((uuid_128_narrowing_values.1 _ (by decide) (by decide)).2).trans
     (by decide)⟩

/-- C9 counterexample: a well-placed-dash input whose first byte pair is
`"-1"` parses successfully, but the pair containing the invalid hex
character `'-'` converts to byte 255 (strtoul's unsigned negation), not 0
(nor 1, as treating the invalid character as a zero digit would give). -/
theorem uuid_new_lenient_cex :
    uuid_new ("-1000000-0000-1000-8000-00805f9b34fb".toList) =
      some [255, 0, 0, 0, 0, 0, 0x10, 0x00, 0x80, 0x00, 0x00, 0x80,
            0x5f, 0x9b, 0x34, 0xfb] ∧
    hexVal '-' = none ∧ (255 : Nat) ≠ 0 ∧ (255 : Nat) ≠ 1 := by decide

/-- C9 (amended): `uuid_new` succeeds on any input of length at least 36
with dashes at offsets 8, 13, 18, 23, regardless of whether the other 32
characters are hex digits; a byte pair whose first character is neither a
hex digit, a sign, nor whitespace converts to 0 (e.g. `"zz"`), but
`strtoul`'s sign handling applies first, so a pair like `"-1"` converts to
255 rather than 0. -/
theorem uuid_new_lenient :
    (∀ s : List Char, 36 ≤ s.length →
      s.getD 8 '\x00' = '-' → s.getD 13 '\x00' = '-' →
      s.getD 18 '\x00' = '-' → s.getD 23 '\x00' = '-' →
      ∃ u, uuid_new s = some u) ∧
    (∀ c0 c1 : Char, hexVal c0 = none → isStrtoulSpace c0 = false →
      c0 ≠ '+' → c0 ≠ '-' → strtoul2 c0 c1 = 0) ∧
    strtoul2 'z' 'z' = 0 ∧ strtoul2 '-' '1' = 255 := by
  refine ⟨?_, ?_, by decide, by decide⟩
  · intro s hlen h8 h13 h18 h23
    unfold uuid_new
    rw [if_neg (by omega),
        if_neg (by push_neg; exact ⟨h8, h13, h18, h23⟩)]
    exact ⟨_, rfl⟩
  · intro c0 c1 h hsp hp hm
    simp only [strtoul2, h]
    rw [if_neg (by simp [hsp]), if_neg hp, if_neg hm]

/-- C9 amended-claim witness: an all-`'z'` body parses successfully, and a
pair starting with a plain invalid character converts to 0. -/
theorem uuid_new_lenient_witness :
    (∃ u, uuid_new ("zzzzzzzz-zzzz-zzzz-zzzz-zzzzzzzzzzzz".toList) =
      some u) ∧
    strtoul2 'q' '5' = 0 :=
  ⟨uuid_new_lenient.1 ("zzzzzzzz-zzzz-zzzz-zzzz-zzzzzzzzzzzz".toList)
      (by decide) (by decide) (by decide) (by decide) (by decide),
   uuid_new_lenient.2.1 'q' '5' (by decide) (by decide) (by decide)
      (by decide)⟩
